import Mathlib

/-!
Verification of the gesture-recognition core of the Smartpresentation
repository: a shallow embedding of the Temporal Debouncer
(`use-gesture-detection`, `processGesture`), the calibration collector
(`calibration-modal.tsx`), the landmark classifier
(`smart-presentation-with-mediapipe.tsx`, `detectGesture`) and the
motion-based swipe tracker (`live-stream-detector.tsx`,
`detectSwipeGesture`), together with theorems settling the spec's claims
about them.

Timestamps are `Date.now()` values, which are integer milliseconds, so
they are modelled as `ℤ`.  The only fractional time computation in the
source is the comparison `now - lastGestureTime < debounceMs * 1.5`; for
integer operands this IEEE-double comparison is exact and equals the
rational comparison `Δ < 3·debounceMs / 2`, embedded as
`Δ * 2 < debounceMs * 3` (the lemma `halfWindow_iff` below proves the two
forms equivalent).  Confidences and landmark coordinates are genuine
fractions and are modelled as `ℚ`, which is exact for the sums,
differences, comparisons and divisions these functions perform.
-/

/-- The six concrete labels of the TypeScript union
`GestureType = "SWIPE_LEFT" | ... | "THUMB_UP" | null` from
`use-gesture-detection`.  The `null` member of the union is modelled by
wrapping the label in `Option`, so the full `GestureType` is
`Option GKind` with `none` for `null`. -/
inductive GKind where
  | swipeLeft
  | swipeRight
  | openPalm
  | closedFist
  | pointing
  | thumbUp
  deriving DecidableEq, Repr

/-- A candidate gesture submitted to `processGesture`: the `gesture`
argument, the `confidence` argument (default 0.9 at the call site) and the
value of `Date.now()` at the moment of the call. -/
structure Candidate where
  gesture : Option GKind
  confidence : ℚ
  time : ℤ
  deriving DecidableEq, Repr

/-- A gesture event accepted (emitted) by the debouncer: the values passed
to the `onGestureDetected` callback plus the acceptance timestamp. -/
structure GEvent where
  gesture : Option GKind
  confidence : ℚ
  time : ℤ
  deriving DecidableEq, Repr

/-- The debouncer's mutable state: `lastGestureTimeRef` and
`lastGestureTypeRef` from `useGestureDetection`. -/
structure DState where
  lastGestureTime : ℤ
  lastGestureType : Option GKind
  deriving DecidableEq, Repr

/-- Initial state of a fresh hook instance:
`useRef<number>(0)` and `useRef<GestureType>(null)`. -/
def initialDState : DState := { lastGestureTime := 0, lastGestureType := none }

/-- The body of `processGesture` from `use-gesture-detection`:
first the plain debounce window (`now - lastGestureTime < debounceMs`
suppresses), then the extended same-gesture window
(`gesture === lastGestureType && now - lastGestureTime < debounceMs * 1.5`
suppresses, written here in the equivalent integer form
`Δ * 2 < debounceMs * 3`), otherwise the candidate is accepted, both refs
are updated and the callback fires.  The function performs no check of the
candidate's confidence and no check for a `null` gesture. -/
def processGesture (debounceMs : ℤ) (s : DState) (c : Candidate) :
    DState × Option GEvent :=
  if c.time - s.lastGestureTime < debounceMs then
    (s, none)
  else if c.gesture = s.lastGestureType ∧
      (c.time - s.lastGestureTime) * 2 < debounceMs * 3 then
    (s, none)
  else
    ({ lastGestureTime := c.time, lastGestureType := c.gesture },
      some { gesture := c.gesture, confidence := c.confidence, time := c.time })

/-- Feeding a whole sequence of candidates through `processGesture`,
collecting the emitted events in order. -/
def runDebouncer (debounceMs : ℤ) (s : DState) : List Candidate → DState × List GEvent
  | [] => (s, [])
  | c :: cs =>
    let r := processGesture debounceMs s c
    let rest := runDebouncer debounceMs r.1 cs
    (rest.1, r.2.toList ++ rest.2)

/-- The events a fresh debouncer emits on a candidate sequence. -/
def emittedEvents (debounceMs : ℤ) (cs : List Candidate) : List GEvent :=
  (runDebouncer debounceMs initialDState cs).2

/-- The debouncer state viewed as a pseudo-event, so that the suppression
windows can be phrased uniformly between the state a candidate meets and
the event that candidate may become. -/
def stateAsEvent (s : DState) : GEvent :=
  { gesture := s.lastGestureType, confidence := 0, time := s.lastGestureTime }

/-- The gap guaranteed between the state an accepted candidate met and the
event it produced: at least `debounceMs`, and at least `debounceMs * 1.5`
(in the integer form `3 * debounceMs ≤ 2 * Δ`) when the gesture repeats
the remembered one. -/
def gapOK (debounceMs : ℤ) (a b : GEvent) : Prop :=
  debounceMs ≤ b.time - a.time ∧
    (b.gesture = a.gesture → debounceMs * 3 ≤ (b.time - a.time) * 2)

/-- A two-candidate sequence of the same gesture type, both outside every
suppression window, so a fresh debouncer emits both. -/
def traceSame : List Candidate :=
  [⟨some .swipeLeft, 1, 2000⟩, ⟨some .swipeLeft, 1, 3300⟩]

/-- A two-candidate sequence of two different gesture types, both outside
the plain window, so a fresh debouncer emits both. -/
def traceTwo : List Candidate :=
  [⟨some .swipeLeft, 1, 2000⟩, ⟨some .openPalm, 1, 3000⟩]

/-- A normalized 3D hand landmark `{x, y, z}` as delivered by the
hand-tracking service. -/
structure Landmark where
  x : ℚ
  y : ℚ
  z : ℚ
  deriving DecidableEq, Repr

/-- The `thumbUp` entry of `CalibrationData` in `calibration-modal.tsx`:
the raw sample list plus the three running averages kept for the step. -/
structure ThumbUpData where
  samples : List (List Landmark)
  thumbExtension : ℚ
  thumbTipY : ℚ
  wristY : ℚ
  deriving DecidableEq, Repr

/-- `EMPTY_CALIBRATION_DATA.thumbUp`:
`{ samples: [], thumbExtension: 0, thumbTipY: 0, wristY: 0 }`. -/
def emptyThumbUpData : ThumbUpData :=
  { samples := [], thumbExtension := 0, thumbTipY := 0, wristY := 0 }

/-- The `thumbUp` branch of the landmark-collection effect in
`CalibrationModal`: the sample is pushed FIRST, and every average is then
recomputed with `samples.length` read AFTER the push, i.e. with the new
sample already counted — `(oldAvg * (n+1) + sample) / (n+2)` where `n` is
the count before the push. -/
def collectThumbUpSample (dta : ThumbUpData) (landmarks : List Landmark) : ThumbUpData :=
  let wrist := landmarks.getD 0 ⟨0, 0, 0⟩
  let thumbTip := landmarks.getD 4 ⟨0, 0, 0⟩
  let thumbExtension := wrist.y - thumbTip.y
  let samples1 := dta.samples ++ [landmarks]
  { samples := samples1
    thumbExtension :=
      (dta.thumbExtension * (samples1.length : ℚ) + thumbExtension) / ((samples1.length : ℚ) + 1)
    thumbTipY :=
      (dta.thumbTipY * (samples1.length : ℚ) + thumbTip.y) / ((samples1.length : ℚ) + 1)
    wristY :=
      (dta.wristY * (samples1.length : ℚ) + wrist.y) / ((samples1.length : ℚ) + 1) }

/-- The guards of the landmark-collection effect: nothing happens without a
first hand of at least 21 landmarks; otherwise the sample is folded in. -/
def collectFrame (dta : ThumbUpData) (handLandmarks : List (List Landmark)) : ThumbUpData :=
  match handLandmarks with
  | [] => dta
  | landmarks :: _ => if landmarks.length < 21 then dta else collectThumbUpSample dta landmarks

/-- The aliasing structure of the calibration state.  `useState` stores the
module-level object `EMPTY_CALIBRATION_DATA` itself, `{ ...prevData }`
copies only the outer object (the per-step objects stay shared), `.push`
and the field assignments mutate the shared step object in place, and
`resetStep` assigns the object reference `EMPTY_CALIBRATION_DATA[gesture]`.
This is modelled with an explicit heap from reference numbers to step
data: `thumbUpRef` is the reference held by the React state's `thumbUp`
field and `emptyThumbUpRef` the one held by `EMPTY_CALIBRATION_DATA`. -/
structure CalStepStore where
  heap : ℕ → ThumbUpData
  thumbUpRef : ℕ
  emptyThumbUpRef : ℕ

/-- At mount, `useState(EMPTY_CALIBRATION_DATA)` makes the state and the
module constant one and the same object: both references are 0. -/
def initialCalStepStore : CalStepStore :=
  { heap := fun _ => emptyThumbUpData, thumbUpRef := 0, emptyThumbUpRef := 0 }

/-- One run of the landmark-collection effect while collecting the
`thumbUp` step: an in-place mutation through the state's reference. -/
def collectFrameStore (st : CalStepStore) (hs : List (List Landmark)) : CalStepStore :=
  { st with heap := Function.update st.heap st.thumbUpRef (collectFrame (st.heap st.thumbUpRef) hs) }

/-- `resetStep` for the `thumbUp` step: the data branch executes
`updatedData[currentGesture] = EMPTY_CALIBRATION_DATA[currentGesture]`,
a reference assignment that leaves the heap untouched. -/
def resetStepStore (st : CalStepStore) : CalStepStore :=
  { st with thumbUpRef := st.emptyThumbUpRef }

/-- The step data the calibration state currently sees. -/
def currentThumbUpData (st : CalStepStore) : ThumbUpData :=
  st.heap st.thumbUpRef

/-- The status displayed for the active calibration step
(`detectionStatus` in `CalibrationModal`). -/
inductive DetectionStatus where
  | waiting
  | detecting
  | success
  | error
  deriving DecidableEq, Repr

/-- The component state of `CalibrationModal` that `nextStep` touches. -/
structure ModalState where
  currentStep : ℕ
  samplesCollected : ℕ
  isCollecting : Bool
  detectionStatus : DetectionStatus
  calibrationData : CalStepStore

/-- `CALIBRATION_STEPS.length`: intro, five gesture steps, complete. -/
def calibrationStepsLength : ℕ := 7

/-- `nextStep` from `CalibrationModal`: below the last step it advances and
clears the per-step status; on the last step it calls
`onCalibrationComplete(calibrationData)` (the emitted payload is returned
in the second component) and closes the modal. -/
def nextStep (st : ModalState) : ModalState × Option CalStepStore :=
  if st.currentStep < calibrationStepsLength - 1 then
    ({ st with
        currentStep := st.currentStep + 1
        detectionStatus := .waiting
        samplesCollected := 0
        isCollecting := false }, none)
  else
    (st, some st.calibrationData)

/-- The result strings of `detectGesture` in
`smart-presentation-with-mediapipe.tsx`, plus the repo-wide CLOSED_FIST
label (present in `GestureType` and in the demo's test buttons) which this
classifier never returns. -/
inductive DetectedGesture where
  | thumbsUp
  | pointing
  | openPalm
  | closedFist
  deriving DecidableEq, Repr

/-- `detectGesture` from `smart-presentation-with-mediapipe.tsx`: guard on
21 landmarks, then three rules in order — thumbs up
(`thumbTip.y < wrist.y - 0.1` with index and middle tips below the wrist),
pointing (`indexTip.y < wrist.y - 0.05` with middle, ring and pinky tips
below the wrist), open palm (all five tips above the wrist) — else `null`.
There is no closed-fist rule and no calibration input. -/
def detectGesture (landmarks : List Landmark) : Option DetectedGesture :=
  if landmarks.length < 21 then none
  else
    let wrist := landmarks.getD 0 ⟨0, 0, 0⟩
    let thumbTip := landmarks.getD 4 ⟨0, 0, 0⟩
    let indexTip := landmarks.getD 8 ⟨0, 0, 0⟩
    let middleTip := landmarks.getD 12 ⟨0, 0, 0⟩
    let ringTip := landmarks.getD 16 ⟨0, 0, 0⟩
    let pinkyTip := landmarks.getD 20 ⟨0, 0, 0⟩
    if thumbTip.y < wrist.y - 0.1 ∧ wrist.y < indexTip.y ∧ wrist.y < middleTip.y then
      some .thumbsUp
    else if indexTip.y < wrist.y - 0.05 ∧ wrist.y < middleTip.y ∧ wrist.y < ringTip.y
        ∧ wrist.y < pinkyTip.y then
      some .pointing
    else if thumbTip.y < wrist.y ∧ indexTip.y < wrist.y ∧ middleTip.y < wrist.y
        ∧ ringTip.y < wrist.y ∧ pinkyTip.y < wrist.y then
      some .openPalm
    else
      none

/-- Modelled from the spec: the calibration-aware Classifier of §4.2 —
"when a CalibrationProfile is supplied for a given gesture, its
running-mean feature value replaces the constant threshold for that
gesture's test, with a small tolerance band" (tolerance 0.05 here, on the
thumb-up test, the one gesture needed for the comparison).  This function
is missing from the source: no classifier in the repository takes a
calibration profile. -/
def calibratedDetectGesture (profile : ThumbUpData) (landmarks : List Landmark) :
    Option DetectedGesture :=
  if landmarks.length < 21 then none
  else
    let wrist := landmarks.getD 0 ⟨0, 0, 0⟩
    let thumbTip := landmarks.getD 4 ⟨0, 0, 0⟩
    let indexTip := landmarks.getD 8 ⟨0, 0, 0⟩
    let middleTip := landmarks.getD 12 ⟨0, 0, 0⟩
    let ringTip := landmarks.getD 16 ⟨0, 0, 0⟩
    let pinkyTip := landmarks.getD 20 ⟨0, 0, 0⟩
    if profile.thumbExtension - 0.05 < wrist.y - thumbTip.y ∧ wrist.y < indexTip.y
        ∧ wrist.y < middleTip.y then
      some .thumbsUp
    else if indexTip.y < wrist.y - 0.05 ∧ wrist.y < middleTip.y ∧ wrist.y < ringTip.y
        ∧ wrist.y < pinkyTip.y then
      some .pointing
    else if thumbTip.y < wrist.y ∧ indexTip.y < wrist.y ∧ middleTip.y < wrist.y
        ∧ ringTip.y < wrist.y ∧ pinkyTip.y < wrist.y then
      some .openPalm
    else
      none

/-- A 21-landmark hand whose wrist (index 0) sits at `y = 1` and whose
thumb tip (index 4) sits at `y = 0`, so the thumb-extension sample
`wrist.y - thumbTip.y` equals 1. -/
def sampleHand : List Landmark :=
  ⟨0, 1, 0⟩ :: List.replicate 20 ⟨0, 0, 0⟩

/-- A 21-landmark closed fist: wrist at `y = 1/2`, the four non-thumb PIP
joints (indices 6, 10, 14, 18) at `y = 3/5` and all five fingertips
(indices 4, 8, 12, 16, 20) dropped to `y = 9/10`, so every non-thumb curl
`tip.y - pip.y` equals `3/10`. -/
def fistHand : List Landmark :=
  [⟨0, 1/2, 0⟩, ⟨0, 1/2, 0⟩, ⟨0, 1/2, 0⟩, ⟨0, 1/2, 0⟩, ⟨0, 9/10, 0⟩,
    ⟨0, 1/2, 0⟩, ⟨0, 3/5, 0⟩, ⟨0, 1/2, 0⟩, ⟨0, 9/10, 0⟩,
    ⟨0, 1/2, 0⟩, ⟨0, 3/5, 0⟩, ⟨0, 1/2, 0⟩, ⟨0, 9/10, 0⟩,
    ⟨0, 1/2, 0⟩, ⟨0, 3/5, 0⟩, ⟨0, 1/2, 0⟩, ⟨0, 9/10, 0⟩,
    ⟨0, 1/2, 0⟩, ⟨0, 3/5, 0⟩, ⟨0, 1/2, 0⟩, ⟨0, 9/10, 0⟩]

/-- A 21-landmark thumbs-up hand: wrist at `y = 1/2`, thumb tip at
`y = 7/20` (thumb extension `3/20`, just past the constant `0.1`
threshold), the other fingertips below the wrist at `y = 7/10`. -/
def thumbHand : List Landmark :=
  [⟨0, 1/2, 0⟩, ⟨0, 1/2, 0⟩, ⟨0, 1/2, 0⟩, ⟨0, 1/2, 0⟩, ⟨0, 7/20, 0⟩,
    ⟨0, 1/2, 0⟩, ⟨0, 1/2, 0⟩, ⟨0, 1/2, 0⟩, ⟨0, 7/10, 0⟩,
    ⟨0, 1/2, 0⟩, ⟨0, 1/2, 0⟩, ⟨0, 1/2, 0⟩, ⟨0, 7/10, 0⟩,
    ⟨0, 1/2, 0⟩, ⟨0, 1/2, 0⟩, ⟨0, 1/2, 0⟩, ⟨0, 7/10, 0⟩,
    ⟨0, 1/2, 0⟩, ⟨0, 1/2, 0⟩, ⟨0, 1/2, 0⟩, ⟨0, 7/10, 0⟩]

/-- A calibration profile whose running-mean thumb extension is `9/10`,
far above what `thumbHand` produces. -/
def bigThumbProfile : ThumbUpData :=
  { samples := [], thumbExtension := 9/10, thumbTipY := 0, wristY := 0 }

/-- A raw RGBA frame as read by `ctx.getImageData` in
`live-stream-detector.tsx`: the flat byte array and the pixel width. -/
structure Frame where
  data : List ℕ
  width : ℕ

/-- The number of iterations of the sampling loop
`for (i = 0; i < frame.data.length; i += 4 * 40)`. -/
def sampleIdxCount (len : ℕ) : ℕ := (len + 159) / 160

/-- The x-positions accumulated by the sampling loop of
`detectSwipeGesture`: every 160th byte index `i` whose pixel is bright
contributes `(i / 4) % width`.  The source brightness test is
`(r + g + b) / 3 > 100` over IEEE doubles, which for byte values is
exactly `300 < r + g + b`.  When `i + 2` runs past the end of the array
the source reads `undefined`, the brightness is NaN and the comparison is
false, which the range guard mirrors. -/
def brightXs (f : Frame) : List ℕ :=
  ((List.range (sampleIdxCount f.data.length)).map (fun k => 160 * k)).filterMap
    (fun i =>
      if i + 2 < f.data.length then
        let r := f.data.getD i 0
        let g := f.data.getD (i + 1) 0
        let b := f.data.getD (i + 2) 0
        if 300 < r + g + b then some ((i / 4) % f.width) else none
      else none)

/-- The `count` accumulator of the sampling loop. -/
def brightCount (f : Frame) : ℕ := (brightXs f).length

/-- The `handXSum` accumulator of the sampling loop. -/
def brightSumX (f : Frame) : ℕ := (brightXs f).sum

/-- `avgX = handXSum / count`. -/
def centroidX (f : Frame) : ℚ := (brightSumX f : ℚ) / (brightCount f : ℚ)

/-- The result values of `detectSwipeGesture`:
`"next" | "prev" | "none"`. -/
inductive SwipeGesture where
  | next
  | prev
  | none
  deriving DecidableEq, Repr

/-- The swipe tracker's mutable state: `lastXRef` and
`gestureCooldownRef`. -/
structure SwipeState where
  lastX : Option ℚ
  cooldown : ℕ
  deriving DecidableEq, Repr

/-- Initial refs: `useRef<number | null>(null)` and `useRef<number>(0)`. -/
def initialSwipeState : SwipeState := { lastX := none, cooldown := 0 }

/-- `detectSwipeGesture` from `live-stream-detector.tsx`: fewer than 10
bright samples returns `"none"` without touching the refs; otherwise
`lastXRef` is set to the new centroid, an active cooldown is decremented
and suppresses the frame, and else a centroid displacement with
`|delta| > 50` emits `"next"` (delta > 0) or `"prev"` (delta < 0) and arms
a 20-frame cooldown. -/
def detectSwipeGesture (s : SwipeState) (f : Frame) : SwipeState × SwipeGesture :=
  if brightCount f < 10 then (s, .none)
  else
    let avgX := centroidX f
    let s1 : SwipeState := { s with lastX := some avgX }
    if 0 < s.cooldown then ({ s1 with cooldown := s.cooldown - 1 }, .none)
    else
      match s.lastX with
      | some lastX =>
        if 50 < |avgX - lastX| then
          ({ s1 with cooldown := 20 }, if 0 < avgX - lastX then .next else .prev)
        else (s1, .none)
      | Option.none => (s1, .none)

/-- An empty frame: the sampling loop finds no bright pixels at all. -/
def emptyFrame : Frame := { data := [], width := 640 }

/-- A `CalibrationModal` state sitting on the last step (index 6,
the "complete" card) with one collected thumb-up sample. -/
def finalModalState : ModalState :=
  { currentStep := 6
    samplesCollected := 0
    isCollecting := false
    detectionStatus := .success
    calibrationData := collectFrameStore initialCalStepStore [sampleHand] }

/-! ### Lemmas and theorems -/

/-- The integer comparison used in `processGesture` is exactly the source's
`now - lastGestureTime < debounceMs * 1.5` read over the rationals. -/
lemma halfWindow_iff (delta d : ℤ) : delta * 2 < d * 3 ↔ (delta : ℚ) < (d : ℚ) * 1.5 := by
  constructor
  · intro h
    have h2 : ((delta * 2 : ℤ) : ℚ) < ((d * 3 : ℤ) : ℚ) := by exact_mod_cast h
    push_cast at h2
    norm_num at h2 ⊢
    linarith
  · intro h
    have h2 : ((delta * 2 : ℤ) : ℚ) < ((d * 3 : ℤ) : ℚ) := by push_cast; norm_num at h ⊢; linarith
    exact_mod_cast h2

lemma gapOK_head_swap (d : ℤ) (a b : GEvent) (hT : a.time = b.time)
    (hG : a.gesture = b.gesture) (l : List GEvent)
    (h : List.Chain' (gapOK d) (a :: l)) : List.Chain' (gapOK d) (b :: l) := by
  cases l with
  | nil => simp
  | cons y l =>
    rw [List.chain'_cons] at h ⊢
    refine ⟨?_, h.2⟩
    unfold gapOK at h ⊢
    rw [← hT, ← hG]
    exact h.1

/-- Core invariant of the debouncer: starting from any state, the state
followed by the emitted events forms a chain in which every adjacent pair
satisfies `gapOK`. -/
lemma runDebouncer_chain (d : ℤ) :
    ∀ (cs : List Candidate) (s : DState),
      List.Chain' (gapOK d) (stateAsEvent s :: (runDebouncer d s cs).2) := by
  intro cs
  induction cs with
  | nil =>
    intro s
    simp [runDebouncer]
  | cons c cs ih =>
    intro s
    by_cases h1 : c.time - s.lastGestureTime < d
    · simpa [runDebouncer, processGesture, h1] using ih s
    · by_cases h2 : c.gesture = s.lastGestureType ∧ (c.time - s.lastGestureTime) * 2 < d * 3
      · simpa [runDebouncer, processGesture, h1, h2] using ih s
      · have hrec := ih { lastGestureTime := c.time, lastGestureType := c.gesture }
        have hrec2 : List.Chain' (gapOK d)
            ({ gesture := c.gesture, confidence := c.confidence, time := c.time } ::
              (runDebouncer d { lastGestureTime := c.time, lastGestureType := c.gesture } cs).2) :=
          gapOK_head_swap d
            (stateAsEvent { lastGestureTime := c.time, lastGestureType := c.gesture })
            { gesture := c.gesture, confidence := c.confidence, time := c.time }
            rfl rfl _ hrec
        have hgap : gapOK d (stateAsEvent s)
            { gesture := c.gesture, confidence := c.confidence, time := c.time } := by
          constructor
          · exact not_lt.mp h1
          · intro hg
            rcases not_and_or.mp h2 with hA | hB
            · exact absurd hg hA
            · exact not_lt.mp hB
        simpa [runDebouncer, processGesture, h1, h2, List.chain'_cons] using ⟨hgap, hrec2⟩

lemma emitted_chain (d : ℤ) (cs : List Candidate) :
    List.Chain' (gapOK d) (stateAsEvent initialDState :: emittedEvents d cs) :=
  runDebouncer_chain d cs initialDState

lemma emitted_chain_tail (d : ℤ) (cs : List Candidate) :
    List.Chain' (gapOK d) (emittedEvents d cs) :=
  (emitted_chain d cs).tail

lemma chain'_pairwise_of_trans {α : Type} {R : α → α → Prop}
    (hT : ∀ a b c, R a b → R b c → R a c) :
    ∀ l : List α, List.Chain' R l → List.Pairwise R l := by
  intro l
  induction l with
  | nil => intro _; exact List.Pairwise.nil
  | cons a l ih =>
    intro h
    cases l with
    | nil => simp
    | cons b l =>
      rw [List.chain'_cons] at h
      have hp := ih h.2
      refine List.Pairwise.cons ?_ hp
      intro c hc
      rcases List.mem_cons.mp hc with rfl | hc2
      · exact h.1
      · exact hT a b c h.1 ((List.pairwise_cons.mp hp).1 c hc2)

/-- Any two emitted events, in emission order, are at least `debounceMs`
apart, whatever their types. -/
lemma emitted_pairwise (d : ℤ) (hd : 0 ≤ d) (cs : List Candidate) :
    List.Pairwise (fun a b : GEvent => d ≤ b.time - a.time) (emittedEvents d cs) := by
  have hc : List.Chain' (fun a b : GEvent => d ≤ b.time - a.time) (emittedEvents d cs) :=
    (emitted_chain_tail d cs).imp (fun a b h => h.1)
  exact chain'_pairwise_of_trans (fun a b c hab hbc => by linarith) _ hc

/-- C1: for every sequence of candidate gestures fed to the Temporal
Debouncer (`processGesture`), any two emitted events of the same gesture
type have timestamps at least `debounceMs` apart. -/
theorem c1_debounce_invariant (d : ℤ) (hd : 0 ≤ d) (cs : List Candidate)
    (i j : Fin (emittedEvents d cs).length) (hij : i < j)
    (_hsame : ((emittedEvents d cs).get i).gesture = ((emittedEvents d cs).get j).gesture) :
    d ≤ ((emittedEvents d cs).get j).time - ((emittedEvents d cs).get i).time :=
  List.pairwise_iff_get.mp (emitted_pairwise d hd cs) i j hij

/-- Witness for C1: on the concrete same-type sequence `traceSame` with
`debounceMs = 800`, both candidates are emitted and the theorem yields the
800 ms gap between them. -/
theorem c1_debounce_invariant_witness :
    (0 : ℤ) ≤ 800 ∧
      800 ≤ ((emittedEvents 800 traceSame).get ⟨1, by decide⟩).time
        - ((emittedEvents 800 traceSame).get ⟨0, by decide⟩).time :=
  ⟨by decide,
    c1_debounce_invariant 800 (by decide) traceSame ⟨0, by decide⟩ ⟨1, by decide⟩
      (by decide) (by decide)⟩

/-- C10: any two events emitted by the Temporal Debouncer, regardless of
their gesture types, have timestamps at least `debounceMs` apart: the
plain cooldown window compares every candidate against the single
`lastGestureTime`, whatever the types involved. -/
theorem c10_plain_window_any_types (d : ℤ) (hd : 0 ≤ d) (cs : List Candidate)
    (i j : Fin (emittedEvents d cs).length) (hij : i < j) :
    d ≤ ((emittedEvents d cs).get j).time - ((emittedEvents d cs).get i).time :=
  List.pairwise_iff_get.mp (emitted_pairwise d hd cs) i j hij

/-- Witness for C10: on the concrete mixed-type sequence `traceTwo` with
`debounceMs = 800`, both candidates are emitted and the theorem yields the
800 ms gap between the SWIPE_LEFT and OPEN_PALM events. -/
theorem c10_plain_window_any_types_witness :
    (0 : ℤ) ≤ 800 ∧
      800 ≤ ((emittedEvents 800 traceTwo).get ⟨1, by decide⟩).time
        - ((emittedEvents 800 traceTwo).get ⟨0, by decide⟩).time :=
  ⟨by decide,
    c10_plain_window_any_types 800 (by decide) traceTwo ⟨0, by decide⟩ ⟨1, by decide⟩
      (by decide)⟩

/-- C2: two consecutive emitted events of the same gesture type (hence
with no event of any other type emitted between them) have timestamps at
least `debounceMs × 1.5` apart. -/
theorem c2_extended_same_gesture (d : ℤ) (cs : List Candidate) (i : ℕ)
    (h : i + 1 < (emittedEvents d cs).length)
    (hsame : ((emittedEvents d cs).get ⟨i + 1, h⟩).gesture
      = ((emittedEvents d cs).get ⟨i, Nat.lt_of_succ_lt h⟩).gesture) :
    (d : ℚ) * 1.5 ≤ (((emittedEvents d cs).get ⟨i + 1, h⟩).time : ℚ)
      - (((emittedEvents d cs).get ⟨i, Nat.lt_of_succ_lt h⟩).time : ℚ) := by
  have hc := List.chain'_iff_get.mp (emitted_chain_tail d cs) i (by omega)
  have h2 := hc.2 hsame
  have h3 : ((d * 3 : ℤ) : ℚ)
      ≤ (((((emittedEvents d cs).get ⟨i + 1, h⟩).time
          - ((emittedEvents d cs).get ⟨i, Nat.lt_of_succ_lt h⟩).time) * 2 : ℤ) : ℚ) :=
    Int.cast_le.mpr h2
  push_cast at h3
  norm_num at h3 ⊢
  linarith

/-- Witness for C2: on `traceSame` with `debounceMs = 800`, the two
consecutive SWIPE_LEFT events are 1300 ms apart, at least `800 × 1.5`. -/
theorem c2_extended_same_gesture_witness :
    0 + 1 < (emittedEvents 800 traceSame).length ∧
      (800 : ℚ) * 1.5 ≤ (((emittedEvents 800 traceSame).get ⟨0 + 1, by decide⟩).time : ℚ)
        - (((emittedEvents 800 traceSame).get ⟨0, by decide⟩).time : ℚ) :=
  ⟨by decide, c2_extended_same_gesture 800 traceSame 0 (by decide) (by decide)⟩

/-- C3: the claim says a NONE-typed or low-confidence candidate is dropped
with the state unchanged; the code has no such check (`confidenceThreshold`
is accepted as an option but never read, and a `null` gesture passes the
same two timing windows), so both candidates below are emitted and both
mutate the state.  This theorem evaluates `processGesture` at the two
failing inputs: a SWIPE_LEFT with confidence 0.1 < 0.7 and a `null`
gesture with confidence 0.9, each at `now = 2000` on a fresh debouncer. -/
theorem c3_no_confidence_or_none_check :
    processGesture 800 initialDState ⟨some .swipeLeft, 1 / 10, 2000⟩
        = (⟨2000, some .swipeLeft⟩, some ⟨some .swipeLeft, 1 / 10, 2000⟩)
      ∧ processGesture 800 initialDState ⟨none, 9 / 10, 2000⟩
        = (⟨2000, none⟩, some ⟨none, 9 / 10, 2000⟩) := by
  constructor <;> norm_num [processGesture, initialDState]

/-- C4 counterexample: the spec's scenario fails on the code in three
places.  (1) A fresh debouncer suppresses a candidate at `t = 0` because
`lastGestureTime` is initialised to 0 and `0 - 0 < 800`.  (2) Two
SWIPE_LEFT candidates 1300 ms apart are BOTH emitted: 1300 is outside the
extended window `800 × 1.5 = 1200`, while the claim says the second is
suppressed.  (3) After an OPEN_PALM emission 400 ms before it, a
SWIPE_LEFT candidate is suppressed by the plain 800 ms window, while the
claim says it is emitted because the last type differs. -/
theorem c4_counterexample :
    emittedEvents 800 [⟨some .swipeLeft, 1, 0⟩] = []
      ∧ emittedEvents 800 [⟨some .swipeLeft, 1, 2000⟩, ⟨some .swipeLeft, 1, 3300⟩]
          = [⟨some .swipeLeft, 1, 2000⟩, ⟨some .swipeLeft, 1, 3300⟩]
      ∧ emittedEvents 800
            [⟨some .swipeLeft, 1, 2000⟩, ⟨some .openPalm, 1, 2900⟩, ⟨some .swipeLeft, 1, 3300⟩]
          = [⟨some .swipeLeft, 1, 2000⟩, ⟨some .openPalm, 1, 2900⟩] := by
  decide

/-- C4 amended: with `debounceMs = 800` and a fresh Debouncer, a candidate
at `t = 0` is suppressed (the initial `lastGestureTime` is 0); running the
scenario from `t = 2000` instead: `(SWIPE_LEFT, 1.0)` at 2000 is emitted, a
same-type candidate 500 ms later is suppressed, a same-type candidate
1300 ms after the emission is emitted (1300 ≥ 1200 = `debounceMs × 1.5`),
and when an OPEN_PALM is emitted 900 ms after the first emission, the
SWIPE_LEFT candidate 400 ms after it is suppressed by the plain window
even though the last emitted type differs. -/
theorem c4_amended_trace :
    emittedEvents 800 [⟨some .swipeLeft, 1, 0⟩] = []
      ∧ emittedEvents 800
            [⟨some .swipeLeft, 1, 2000⟩, ⟨some .swipeLeft, 1, 2500⟩, ⟨some .swipeLeft, 1, 3300⟩]
          = [⟨some .swipeLeft, 1, 2000⟩, ⟨some .swipeLeft, 1, 3300⟩]
      ∧ emittedEvents 800
            [⟨some .swipeLeft, 1, 2000⟩, ⟨some .openPalm, 1, 2900⟩, ⟨some .swipeLeft, 1, 3300⟩]
          = [⟨some .swipeLeft, 1, 2000⟩, ⟨some .openPalm, 1, 2900⟩] := by
  decide

/-- C5: the claim says each calibration sample is folded as
`newAvg = (oldAvg × n + sample) / (n + 1)` with `n` the count before the
sample, so N identical samples average to the sample value.  The code
pushes the sample BEFORE reading `samples.length`, so it divides by one
too many: one sample of thumb extension 1 on a fresh step yields a
running average of `1/2`, a second identical sample yields `2/3` — never
the sample value.  This theorem evaluates the collection step at that
failing input. -/
theorem c5_average_off_by_one :
    ((sampleHand.getD 0 ⟨0, 0, 0⟩).y - (sampleHand.getD 4 ⟨0, 0, 0⟩).y = 1)
      ∧ (collectThumbUpSample emptyThumbUpData sampleHand).thumbExtension = 1 / 2
      ∧ (collectThumbUpSample (collectThumbUpSample emptyThumbUpData sampleHand)
          sampleHand).thumbExtension = 2 / 3
      ∧ ((1 : ℚ) / 2 ≠ 1) := by
  norm_num [collectThumbUpSample, emptyThumbUpData, sampleHand]

/-- C6: the claim says Reset clears the step's sample list and running
averages back to the initial empty values.  Because the React state is
initialised with the module object `EMPTY_CALIBRATION_DATA` itself and the
collection effect mutates the shared per-step object in place,
`resetStep`'s assignment of `EMPTY_CALIBRATION_DATA[currentGesture]`
re-installs the very object that was just mutated: after one collected
sample and a Reset, the sample list still holds the sample and the
running average is still `1/2`, not 0. -/
theorem c6_reset_does_not_clear :
    currentThumbUpData (resetStepStore (collectFrameStore initialCalStepStore [sampleHand]))
        = currentThumbUpData (collectFrameStore initialCalStepStore [sampleHand])
      ∧ (currentThumbUpData
          (resetStepStore (collectFrameStore initialCalStepStore [sampleHand]))).samples
        = [sampleHand]
      ∧ (currentThumbUpData
          (resetStepStore (collectFrameStore initialCalStepStore [sampleHand]))).thumbExtension
        = 1 / 2 := by
  refine ⟨?_, ?_, ?_⟩ <;>
    norm_num [currentThumbUpData, resetStepStore, collectFrameStore, initialCalStepStore,
      Function.update, collectFrame, collectThumbUpSample, emptyThumbUpData, sampleHand]

/-- C7 counterexample: a hand whose four non-thumb curls all equal `3/10`
(far above any of the repository's fixed thresholds) and which matches no
other rule is classified as `null`, not CLOSED_FIST — `detectGesture` has
no closed-fist rule. -/
theorem c7_counterexample :
    ((fistHand.getD 8 ⟨0, 0, 0⟩).y - (fistHand.getD 6 ⟨0, 0, 0⟩).y = 3 / 10
      ∧ (fistHand.getD 12 ⟨0, 0, 0⟩).y - (fistHand.getD 10 ⟨0, 0, 0⟩).y = 3 / 10
      ∧ (fistHand.getD 16 ⟨0, 0, 0⟩).y - (fistHand.getD 14 ⟨0, 0, 0⟩).y = 3 / 10
      ∧ (fistHand.getD 20 ⟨0, 0, 0⟩).y - (fistHand.getD 18 ⟨0, 0, 0⟩).y = 3 / 10)
      ∧ detectGesture fistHand = none := by
  norm_num [detectGesture, fistHand]

/-- C7 amended: the classifier of
`smart-presentation-with-mediapipe.tsx` implements no CLOSED_FIST rule:
for every landmark list its answer is one of thumbs-up, pointing,
open-palm or `null`, never CLOSED_FIST, so a hand with all four non-thumb
fingers curled (and no other rule matching) classifies as `null`. -/
theorem c7_no_closed_fist_rule (landmarks : List Landmark) :
    detectGesture landmarks ≠ some .closedFist := by
  unfold detectGesture
  dsimp only
  split_ifs <;> simp

/-- C8 counterexample: the claim says the Classifier thereafter uses the
calibrated running-mean threshold.  No classifier in the repository takes
the profile: on `thumbHand` the code's `detectGesture` answers thumbs-up
from the fixed `0.1` constant, while the spec's calibrated classifier with
the handed-over profile (mean thumb extension `9/10`) would answer `null`
— the code's output does not change with the profile. -/
theorem c8_counterexample :
    detectGesture thumbHand = some .thumbsUp
      ∧ calibratedDetectGesture bigThumbProfile thumbHand = none
      ∧ detectGesture thumbHand ≠ calibratedDetectGesture bigThumbProfile thumbHand := by
  have h1 : detectGesture thumbHand = some .thumbsUp := by
    norm_num [detectGesture, thumbHand]
  have h2 : calibratedDetectGesture bigThumbProfile thumbHand = none := by
    norm_num [calibratedDetectGesture, bigThumbProfile, thumbHand]
  refine ⟨h1, h2, ?_⟩
  rw [h1, h2]
  simp

/-- C8 amended: navigating Next from the final calibration step finalizes
the accumulated CalibrationProfile and hands exactly it to the
`onCalibrationComplete` callback (leaving the modal state untouched); the
Classifier, however, never consumes it and keeps its fixed constant
thresholds. -/
theorem c8_finalize (st : ModalState) (h : st.currentStep = calibrationStepsLength - 1) :
    (nextStep st).2 = some st.calibrationData ∧ (nextStep st).1 = st := by
  have h2 : ¬ st.currentStep < calibrationStepsLength - 1 := by omega
  simp [nextStep, h2]

/-- Witness for C8: on the concrete last-step state `finalModalState`,
`nextStep` emits that state's calibration data. -/
theorem c8_finalize_witness :
    finalModalState.currentStep = calibrationStepsLength - 1
      ∧ ((nextStep finalModalState).2 = some finalModalState.calibrationData
        ∧ (nextStep finalModalState).1 = finalModalState) :=
  ⟨rfl, c8_finalize finalModalState rfl⟩

/-- C9: per frame, the Motion-Based Swipe Tracker emits nothing when fewer
than 10 bright samples are found; with enough bright samples an active
cooldown suppresses the frame and counts down; and otherwise a centroid
displacement of more than 50 px relative to the previous frame emits
`next` (Δx > 0) or `prev` (Δx < 0) and arms the fixed 20-frame
cooldown. -/
theorem c9_swipe_tracker (s : SwipeState) (f : Frame) :
    (brightCount f < 10 → detectSwipeGesture s f = (s, .none))
      ∧ (10 ≤ brightCount f → 0 < s.cooldown →
          detectSwipeGesture s f
            = ({ lastX := some (centroidX f), cooldown := s.cooldown - 1 }, .none))
      ∧ (∀ lx : ℚ, 10 ≤ brightCount f → s.cooldown = 0 → s.lastX = some lx →
          50 < |centroidX f - lx| →
          detectSwipeGesture s f =
            ({ lastX := some (centroidX f), cooldown := 20 },
              if 0 < centroidX f - lx then .next else .prev)) := by
  refine ⟨?_, ?_, ?_⟩
  · intro h
    simp [detectSwipeGesture, h]
  · intro h hc
    have h10 : ¬ brightCount f < 10 := not_lt.mpr h
    simp [detectSwipeGesture, h10, hc]
  · intro lx h hc hl hx
    have h10 : ¬ brightCount f < 10 := not_lt.mpr h
    simp [detectSwipeGesture, h10, hc, hl, hx]

/-- Witness for C9: the empty frame has no bright samples, and the tracker
emits nothing and leaves its state unchanged. -/
theorem c9_swipe_tracker_witness :
    brightCount emptyFrame < 10
      ∧ detectSwipeGesture initialSwipeState emptyFrame = (initialSwipeState, .none) :=
  ⟨by decide, (c9_swipe_tracker initialSwipeState emptyFrame).1 (by decide)⟩
